import Mathlib

/-!
Verification development for the SCMXpert authentication and user-management
subsystem (app/auth.py, app/routes/auth_routes.py, app/routes/user_routes.py).

The Python handlers are embedded shallowly: the Mongo users collection becomes
a list of user records, datetimes become natural-number timestamps, random
values (bcrypt salts, reset tokens, fresh document ids) become explicit
parameters, and an HTTPException raised by a handler becomes the error branch
of an Except value. External libraries (passlib bcrypt, python-jose JWT) are
modelled by their documented observable behaviour, as noted on each definition.
-/

set_option autoImplicit false

namespace SCMX

/-! ## Passlib / bcrypt model (external library used by app/auth.py)

Models the documented behaviour of passlib CryptContext with
schemes=["bcrypt"] (app/auth.py line 16):
- a hash string is either identifiable as a bcrypt digest or not;
- CryptContext.verify raises UnknownHashError (a ValueError) when the hash
  string cannot be identified as any configured scheme;
- the bcrypt algorithm uses only the first 72 bytes of the secret (passlib
  default truncate_error=False silently truncates longer secrets);
- the digest is an idealised collision-free commitment to the salt and the
  truncated secret (real bcrypt collisions have negligible probability,
  which is the idealisation the spec concedes with the words
  "overwhelming probability"). -/

inductive PasslibError where
  /-- passlib UnknownHashError: the hash string matched no configured scheme. -/
  | unknownHash
deriving DecidableEq, Repr

/-- A candidate hash string, split by whether passlib can identify it as a
bcrypt digest. A bcrypt hash string carries its salt and its digest value. -/
inductive HashString where
  | bcrypt (salt : String) (digest : String × String)
  | corrupt (raw : String)
deriving DecidableEq, Repr

/-- bcrypt uses only the first 72 bytes of the secret; modelled on characters,
which coincides with bytes for ASCII secrets. -/
def bcryptTruncate (p : String) : String :=
  String.mk (p.toList.take 72)

/-- Idealised bcrypt digest: a collision-free commitment to the salt and the
72-byte-truncated secret. -/
def bcryptDigestOf (salt p : String) : String × String :=
  (salt, bcryptTruncate p)

/-- passlib CryptContext.verify: if the hash is identifiable as bcrypt,
recompute the digest from the stored salt and compare; otherwise raise
UnknownHashError. -/
def cryptContextVerify (plain : String) (h : HashString) : Except PasslibError Bool :=
  match h with
  | HashString.bcrypt salt d => Except.ok (decide (d = bcryptDigestOf salt plain))
  | HashString.corrupt _ => Except.error PasslibError.unknownHash

/-- passlib CryptContext.hash: generate a salt (passed here as a parameter,
since it is random) and emit a well-formed bcrypt hash string. -/
def cryptContextHash (salt : String) (p : String) : HashString :=
  HashString.bcrypt salt (bcryptDigestOf salt p)

/-- app/auth.py lines 22-26: a bare pass-through to pwd_context.verify,
with no exception handling. -/
def verify_password (plain_password : String) (hashed_password : HashString) :
    Except PasslibError Bool :=
  cryptContextVerify plain_password hashed_password

/-- app/auth.py lines 28-32: a bare pass-through to pwd_context.hash.
The random salt is an explicit parameter. -/
def get_password_hash (salt : String) (password : String) : HashString :=
  cryptContextHash salt password

/-! ## JWT model (python-jose, used by app/auth.py)

A token string is either a payload correctly signed with SECRET_KEY under
ALGORITHM, or anything else (malformed, mis-signed, wrong algorithm), which
jose jwt.decode rejects with a JWTError. jwt.decode also validates the exp
claim, raising ExpiredSignatureError (a JWTError) when the token is expired.
Timestamps are natural numbers (seconds). -/

/-- The claims of a token payload, as produced by create_access_token and
read back by get_current_user: sub and role are optional strings, exp is
always set by create_access_token. -/
structure Payload where
  sub : Option String
  role : Option String
  exp : Nat
deriving DecidableEq, Repr

/-- A token string: either correctly signed (with its decoded payload) or
not decodable with the configured key and algorithm. -/
inductive JwtToken where
  | signed (payload : Payload)
  | malformed (raw : String)
deriving DecidableEq, Repr

inductive JWTError where
  | invalidSignature
  | expiredSignature
deriving DecidableEq, Repr

/-- app/config.py line 37: default token lifetime in minutes. -/
def ACCESS_TOKEN_EXPIRE_MINUTES : Nat := 10

/-- app/auth.py lines 34-57: encode the payload data (sub, role) together
with exp = now + expires_delta (seconds), defaulting the delta to
ACCESS_TOKEN_EXPIRE_MINUTES. -/
def create_access_token (now : Nat) (sub role : Option String)
    (expires_delta : Option Nat) : JwtToken :=
  JwtToken.signed
    { sub := sub
      role := role
      exp := now + expires_delta.getD (ACCESS_TOKEN_EXPIRE_MINUTES * 60) }

/-- jose jwt.decode with SECRET_KEY and [ALGORITHM]: signature must match and
the exp claim must still be in the future, else a JWTError is raised. -/
def jwtDecode (now : Nat) (t : JwtToken) : Except JWTError Payload :=
  match t with
  | JwtToken.malformed _ => Except.error JWTError.invalidSignature
  | JwtToken.signed p =>
      if now < p.exp then Except.ok p else Except.error JWTError.expiredSignature

/-! ## User records and the users collection (MongoDB) -/

/-- A document of the users collection. Fields written by post_signup
(app/routes/auth_routes.py lines 92-98) plus the optional reset-token and
update-audit fields written later; id models the Mongo _id. Optional fields
are absent (none) on a freshly signed-up user. -/
structure User where
  id : Nat
  name : String
  email : String
  password_hash : HashString
  role : Option String
  reset_token : Option String
  reset_token_expires_at : Option Nat
  created_at : Nat
  updated_at : Option Nat
deriving DecidableEq, Repr

abbrev Store := List User

/-- users_collection.find_one with filter on the email field: first matching
document. -/
def find_one_email (store : Store) (email : String) : Option User :=
  store.find? (fun u => u.email == email)

/-- users_collection.update_one filtered by _id with a $set document:
Mongo updates at most the first (and, ids being unique, only) matching
document atomically. -/
def update_one_by_id (store : Store) (uid : Nat) (f : User → User) : Store :=
  match store with
  | [] => []
  | u :: rest =>
      if u.id == uid then f u :: rest else u :: update_one_by_id rest uid f

/-- users_collection.update_one filtered by email with a $set document. -/
def update_one_by_email (store : Store) (email : String) (f : User → User) : Store :=
  match store with
  | [] => []
  | u :: rest =>
      if u.email == email then f u :: rest else u :: update_one_by_email rest email f

/-- users_collection.delete_one filtered by email: removes the first matching
document. -/
def delete_one_by_email (store : Store) (email : String) : Store :=
  match store with
  | [] => []
  | u :: rest =>
      if u.email == email then rest else u :: delete_one_by_email rest email

/-! ## Authentication dependency chain (app/auth.py lines 59-136) -/

/-- The payload of an HTTPException as raised by the handlers. -/
structure HTTPError where
  status_code : Nat
  detail : String
deriving DecidableEq, Repr

/-- app/auth.py lines 74-78: the single exception object raised for every
authentication failure inside get_current_user. -/
def credentials_exception : HTTPError :=
  { status_code := 401, detail := "Not authenticated" }

/-- app/auth.py line 124. -/
def inactive_exception : HTTPError :=
  { status_code := 400, detail := "Inactive user" }

/-- app/auth.py lines 132-135. -/
def forbidden_exception : HTTPError :=
  { status_code := 403, detail := "Not enough permissions" }

/-- app/auth.py lines 81-86: take the token from the access_token cookie;
if the cookie has none and the authorization header supplied one, use that.
An absent or empty cookie value is falsy in Python and is modelled as none. -/
def extractToken (cookie header : Option JwtToken) : Option JwtToken :=
  match cookie with
  | some c => some c
  | none => header

/-- app/auth.py lines 59-116: resolve the principal. Missing token, decode
failure, absent sub claim and unknown user all raise the same
credentials_exception; on success the user document from the store is
returned. -/
def get_current_user (now : Nat) (cookie header : Option JwtToken)
    (store : Store) : Except HTTPError User :=
  match extractToken cookie header with
  | none => Except.error credentials_exception
  | some t =>
      match jwtDecode now t with
      | Except.error _ => Except.error credentials_exception
      | Except.ok payload =>
          match payload.sub with
          | none => Except.error credentials_exception
          | some username =>
              match find_one_email store username with
              | none => Except.error credentials_exception
              | some user => Except.ok user

/-- Whether the control flow of get_current_user reaches the
users_collection.find_one call at app/auth.py line 111: it does exactly when
a token was found, decoded, and its sub claim is present (any string,
including the empty string, passes the "is None" check at line 98). -/
def get_current_user_queries_store (now : Nat) (cookie header : Option JwtToken) : Bool :=
  match extractToken cookie header with
  | none => false
  | some t =>
      match jwtDecode now t with
      | Except.error _ => false
      | Except.ok payload => payload.sub.isSome

/-- app/auth.py lines 118-125: a user document returned by get_current_user
always carries its fields, so the Python truthiness check on the dict never
fires; modelled as a pass-through. -/
def get_current_active_user (current_user : User) : Except HTTPError User :=
  Except.ok current_user

/-- app/auth.py lines 127-136: admin gate on the role field of the user
document loaded from the store (dict.get on the document, not on the token
payload). -/
def verify_admin (current_user : User) : Except HTTPError User :=
  if current_user.role == some "admin" then Except.ok current_user
  else Except.error forbidden_exception

/-- The composed dependency chain Depends(verify_admin) ←
Depends(get_current_active_user) ← Depends(get_current_user) used by the
admin routes. -/
def require_admin (now : Nat) (cookie header : Option JwtToken)
    (store : Store) : Except HTTPError User :=
  (get_current_user now cookie header store).bind
    (fun u => (get_current_active_user u).bind verify_admin)

/-! ## Route handlers (app/routes/auth_routes.py, app/routes/user_routes.py)

Each handler is embedded as a function from its form inputs and the current
store to the updated store, the flash message stored on the session, and the
redirect target. Random inputs (salt, reset token, fresh _id) and the current
time are explicit parameters. -/

/-- The caller-visible outcome of a handler together with the store it
leaves behind. -/
structure RouteResult where
  store : Store
  flash : String
  redirect : String
deriving DecidableEq, Repr

/-- app/routes/auth_routes.py lines 59-105: signup. Role is hardcoded to
"user" (line 88); the inserted document carries exactly the fields of
lines 92-98. -/
def post_signup (now : Nat) (salt : String) (freshId : Nat)
    (fullname email password confirm_password : String) (store : Store) :
    RouteResult :=
  if password != confirm_password then
    { store := store, flash := "Passwords do not match.", redirect := "/signup" }
  else if (find_one_email store email).isSome then
    { store := store, flash := "Email already registered.", redirect := "/signup" }
  else
    { store := store ++
        [{ id := freshId
           name := fullname
           email := email
           password_hash := get_password_hash salt password
           role := some "user"
           reset_token := none
           reset_token_expires_at := none
           created_at := now
           updated_at := none }]
      flash := "Account created successfully! Please log in."
      redirect := "/login" }

/-- app/routes/auth_routes.py lines 191-214: forgot password. When the email
matches a user, store a fresh random reset token (parameter) with expiry
now + 1 hour; in every case flash the same generic message and redirect to
the login page. -/
def process_forgot_password (now : Nat) (fresh_token : String) (email : String)
    (store : Store) : RouteResult :=
  let store' :=
    match find_one_email store email with
    | none => store
    | some _ =>
        update_one_by_email store email (fun u =>
          { u with
              reset_token := some fresh_token
              reset_token_expires_at := some (now + 3600)
              updated_at := some now })
  { store := store'
    flash := "If an account with that email exists, instructions to reset your password have been sent."
    redirect := "/login" }

/-- The filter of the find_one call at app/routes/auth_routes.py lines
247-250: stored reset_token equals the supplied token and
reset_token_expires_at is strictly greater than now (a cleared none field
matches neither condition in Mongo). -/
def resetMatches (now : Nat) (token : String) (u : User) : Bool :=
  u.reset_token == some token &&
    (match u.reset_token_expires_at with
     | some e => now < e
     | none => false)

/-- app/routes/auth_routes.py lines 228-270: consume a reset token. On a
match, one update_one call with a single $set document simultaneously
overwrites password_hash and clears reset_token and reset_token_expires_at. -/
def reset_password_post (now : Nat) (salt : String)
    (token new_password confirm_password : String) (store : Store) :
    RouteResult :=
  if new_password != confirm_password then
    { store := store
      flash := "Passwords do not match."
      redirect := "/reset-password?token=" ++ token }
  else
    match store.find? (resetMatches now token) with
    | none =>
        { store := store
          flash := "Invalid or expired password reset token."
          redirect := "/forgot-password" }
    | some user =>
        { store := update_one_by_id store user.id (fun u =>
            { u with
                password_hash := get_password_hash salt new_password
                reset_token := none
                reset_token_expires_at := none
                updated_at := some now })
          flash := "Your password has been reset successfully. Please log in."
          redirect := "/login" }

/-- app/routes/user_routes.py lines 94-132: admin edit of a user record.
A role outside {user, admin} is coerced to "user" (lines 109-110); the flash
reflects the Mongo modified count (positive exactly when the matched
document actually changed). -/
def update_user (now : Nat) (email : String)
    (name new_email role : String) (store : Store) : RouteResult :=
  let role' := if role == "user" || role == "admin" then role else "user"
  if email != new_email && (find_one_email store new_email).isSome then
    { store := store
      flash := "New email already exists for another user."
      redirect := "/edit-user/" ++ email }
  else
    let store' := update_one_by_email store email (fun u =>
      { u with
          name := name
          email := new_email
          role := some role'
          updated_at := some now })
    { store := store'
      flash :=
        if store' != store then "User updated successfully."
        else "No changes made or user not found."
      redirect := "/user_management" }

/-- app/routes/user_routes.py lines 134-158: promote a user to admin.
Refused outright when the target email is the requesting admin own email
(lines 143-145). -/
def assign_admin (now : Nat) (email : String) (current_user : User)
    (store : Store) : RouteResult :=
  if email == current_user.email then
    { store := store
      flash := "You cannot change your own role."
      redirect := "/user_management" }
  else
    let store' := update_one_by_email store email (fun u =>
      { u with role := some "admin", updated_at := some now })
    { store := store'
      flash :=
        if store' != store then
          "User " ++ email ++ " promoted to admin successfully."
        else "Failed to update user role or user not found."
      redirect := "/user_management" }

/-- app/routes/user_routes.py lines 160-184: delete a user. Refused outright
when the target email is the requesting admin own email (lines 169-171). -/
def delete_user (email : String) (current_user : User)
    (store : Store) : RouteResult :=
  if email == current_user.email then
    { store := store
      flash := "You cannot delete your own account."
      redirect := "/user_management" }
  else
    let store' := delete_one_by_email store email
    { store := store'
      flash :=
        if store' != store then "User " ++ email ++ " deleted successfully."
        else "User " ++ email ++ " not found."
      redirect := "/user_management" }

/-! ## Helper lemmas about the store primitives -/

/-- Every element of an update_one_by_email result is either an untouched
element of the original store or the image under the update of some original
element. -/
theorem mem_update_one_by_email_cases (email : String) (f : User → User) :
    ∀ (store : Store) (x : User), x ∈ update_one_by_email store email f →
      x ∈ store ∨ ∃ v, v ∈ store ∧ x = f v := by
  intro store
  induction store with
  | nil =>
      intro x hx
      simp [update_one_by_email] at hx
  | cons w rest ih =>
      intro x hx
      simp only [update_one_by_email] at hx
      split at hx
      · rcases List.mem_cons.mp hx with h1 | h1
        · exact Or.inr ⟨w, List.mem_cons_self w rest, h1⟩
        · exact Or.inl (List.mem_cons_of_mem w h1)
      · rcases List.mem_cons.mp hx with h1 | h1
        · exact Or.inl (h1 ▸ List.mem_cons_self w rest)
        · rcases ih x h1 with h2 | ⟨v, hv, he⟩
          · exact Or.inl (List.mem_cons_of_mem w h2)
          · exact Or.inr ⟨v, List.mem_cons_of_mem w hv, he⟩

/-- After updating (by its unique _id) the first and only store document
satisfying P with an update that falsifies P, no document satisfies P any
more. This is the heart of single-use reset tokens: ids are pairwise
distinct (a Mongo collection invariant) and the supplied token singles out
one document. -/
theorem find?_update_one_by_id_eq_none (P : User → Bool) (f : User → User)
    (hf : ∀ v, P (f v) = false) :
    ∀ (store : Store) (u : User),
      store.find? P = some u →
      store.Pairwise (fun a b => a.id ≠ b.id) →
      (∀ v ∈ store, P v = true → v = u) →
      (update_one_by_id store u.id f).find? P = none := by
  intro store
  induction store with
  | nil =>
      intro u hfind _ _
      simp at hfind
  | cons w rest ih =>
      intro u hfind hpw huniq
      rw [List.pairwise_cons] at hpw
      obtain ⟨hw, hrest⟩ := hpw
      by_cases hPw : P w = true
      · have hwu : w = u := by
          rw [List.find?_cons_of_pos _ hPw] at hfind
          exact Option.some.inj hfind
        subst hwu
        have hred : update_one_by_id (w :: rest) w.id f = f w :: rest := by
          simp [update_one_by_id]
        rw [hred, List.find?_cons_of_neg _ (by simp [hf]), List.find?_eq_none]
        intro x hx hPx
        have hxw : x = w := huniq x (List.mem_cons_of_mem w hx) hPx
        exact hw x hx (by rw [hxw])
      · rw [List.find?_cons_of_neg _ hPw] at hfind
        have humem : u ∈ rest := List.mem_of_find?_eq_some hfind
        have hne : w.id ≠ u.id := hw u humem
        have hred : update_one_by_id (w :: rest) u.id f =
            w :: update_one_by_id rest u.id f := by
          simp [update_one_by_id, hne]
        rw [hred, List.find?_cons_of_neg _ hPw]
        exact ih u hfind hrest (fun v hv => huniq v (List.mem_cons_of_mem w hv))

/-! ## Claim theorems -/

/-- Claim C1, counterexample. The claim asserts that after an admin promotes
b@x.com, a require_admin check with a pre-promotion token still embedding
role "user" is rejected until re-login. In the code, verify_admin reads the
role from the user document freshly loaded from the store, never from the
token payload: running the actual promotion handler (assign_admin) and then
require_admin with the old role-"user" token yields Except.ok, not a
rejection. -/
theorem C1_counterexample :
    require_admin 100
        (some (create_access_token 0 (some "b@x.com") (some "user") (some 600)))
        none
        (assign_admin 50 "b@x.com"
          ⟨0, "root", "a@x.com", get_password_hash "s0" "rootpw", some "admin",
            none, none, 0, none⟩
          [⟨0, "root", "a@x.com", get_password_hash "s0" "rootpw", some "admin",
              none, none, 0, none⟩,
           ⟨1, "bee", "b@x.com", get_password_hash "s1" "beepw", some "user",
              none, none, 0, none⟩]).store =
      Except.ok
        ⟨1, "bee", "b@x.com", get_password_hash "s1" "beepw", some "admin",
          none, none, 0, some 50⟩ := rfl

/-- Claim C1, amended. require_admin authorizes from the role stored in the
credential store at request time and ignores the role embedded in the bearer
token: its outcome is invariant under changing the token role claim, and a
pre-promotion token embedding role "user" is accepted immediately after the
store role becomes admin (no staleness until re-login). -/
theorem C1_admin_role_read_from_store :
    (∀ (now : Nat) (sub r1 r2 : Option String) (e : Nat)
        (header : Option JwtToken) (store : Store),
        require_admin now (some (JwtToken.signed ⟨sub, r1, e⟩)) header store =
          require_admin now (some (JwtToken.signed ⟨sub, r2, e⟩)) header store) ∧
    require_admin 100
        (some (create_access_token 0 (some "b@x.com") (some "user") (some 600)))
        none
        [⟨1, "bee", "b@x.com", get_password_hash "s1" "beepw", some "admin",
            none, none, 0, some 50⟩] =
      Except.ok
        ⟨1, "bee", "b@x.com", get_password_hash "s1" "beepw", some "admin",
          none, none, 0, some 50⟩ := by
  constructor
  · intro now sub r1 r2 e header store
    by_cases h : now < e <;>
      simp [require_admin, get_current_user, extractToken, jwtDecode, h]
  · rfl

/-- Claim C4: process_forgot_password produces the identical caller-visible
response (flash message and redirect target) on any two stores, in
particular whether or not a user with the supplied email exists
(anti-enumeration noninterference). -/
theorem C4_forgot_password_uniform_response :
    ∀ (now : Nat) (fresh_token email : String) (s1 s2 : Store),
      (process_forgot_password now fresh_token email s1).flash =
        (process_forgot_password now fresh_token email s2).flash ∧
      (process_forgot_password now fresh_token email s1).redirect =
        (process_forgot_password now fresh_token email s2).redirect :=
  fun _ _ _ _ _ => ⟨rfl, rfl⟩

/-- Claim C5, counterexample. The claim asserts verify_password returns false
for corrupt hash strings and never raises. verify_password is a bare
pass-through to passlib CryptContext.verify, which raises UnknownHashError
on a hash string it cannot identify; the exception propagates to the
caller. -/
theorem C5_counterexample :
    verify_password "x" (HashString.corrupt "nothash") =
      Except.error PasslibError.unknownHash := rfl

/-- Claim C5, amended. For a hash string identifiable as a bcrypt digest,
verify_password returns a boolean; for a corrupt or unidentifiable hash
string it does not fail closed but propagates passlib UnknownHashError to
its caller (there is no exception handling in verify_password). -/
theorem C5_corrupt_hash_raises :
    (∀ (p salt : String) (d : String × String),
        verify_password p (HashString.bcrypt salt d) =
          Except.ok (decide (d = bcryptDigestOf salt p))) ∧
    (∀ (p raw : String),
        verify_password p (HashString.corrupt raw) =
          Except.error PasslibError.unknownHash) :=
  ⟨fun _ _ _ => rfl, fun _ _ => rfl⟩

/-- Claim C7, counterexample. The claim asserts that a missing token and a
syntactically invalid token produce distinguishable outcomes. Both paths of
get_current_user raise the one credentials_exception object built at
app/auth.py lines 74-78: on a concrete request the two outcomes are equal
(both 401 "Not authenticated"). -/
theorem C7_counterexample :
    get_current_user 0 none none [] =
        get_current_user 0 (some (JwtToken.malformed "garbage")) none [] ∧
    get_current_user 0 none none [] = Except.error credentials_exception :=
  ⟨rfl, rfl⟩

/-- Claim C7, amended. A request with no token anywhere and a request with a
syntactically invalid token (in the cookie or in the header) fail with the
same generic credentials_exception (401, "Not authenticated"); the two
failure modes are not distinguishable to the caller. -/
theorem C7_undifferentiated_error :
    ∀ (now : Nat) (store : Store) (raw : String) (header : Option JwtToken),
      get_current_user now none none store = Except.error credentials_exception ∧
      get_current_user now (some (JwtToken.malformed raw)) header store =
        Except.error credentials_exception ∧
      get_current_user now none (some (JwtToken.malformed raw)) store =
        Except.error credentials_exception :=
  fun _ _ _ _ => ⟨rfl, rfl, rfl⟩

/-- Claim C10: invoking assign_admin or delete_user with the requesting
admin own email as target leaves the store unchanged and flashes the
corresponding refusal message, for every store and every current user. -/
theorem C10_self_target_noop :
    ∀ (now : Nat) (cu : User) (store : Store),
      assign_admin now cu.email cu store =
        { store := store
          flash := "You cannot change your own role."
          redirect := "/user_management" } ∧
      delete_user cu.email cu store =
        { store := store
          flash := "You cannot delete your own account."
          redirect := "/user_management" } := by
  intro now cu store
  constructor <;> simp [assign_admin, delete_user]

/-- Claim C3: when both a valid cookie token and any header token are
present, get_current_user authenticates the principal named by the cookie
token (the header is never consulted); with no token in either place it
fails with the authentication error raised on a missing token. -/
theorem C3_cookie_precedence_and_missing :
    (∀ (now : Nat) (pc : Payload) (header : Option JwtToken) (store : Store)
        (s : String) (u : User),
        now < pc.exp → pc.sub = some s → find_one_email store s = some u →
        get_current_user now (some (JwtToken.signed pc)) header store =
          Except.ok u) ∧
    (∀ (now : Nat) (store : Store),
        get_current_user now none none store =
          Except.error credentials_exception) := by
  constructor
  · intro now pc header store s u hexp hsub hfind
    simp [get_current_user, extractToken, jwtDecode, hexp, hsub, hfind]
  · intro now store
    rfl

/-- Witness for C3: a concrete request carrying a valid cookie token for
a@x.com and a different valid header token for h@x.com resolves to the
a@x.com record; the same store with no tokens fails. -/
theorem C3_cookie_precedence_and_missing_witness :
    get_current_user 0 (some (JwtToken.signed ⟨some "a@x.com", some "user", 600⟩))
        (some (JwtToken.signed ⟨some "h@x.com", some "admin", 600⟩))
        [⟨1, "alice", "a@x.com", get_password_hash "sa" "pa", some "user",
            none, none, 0, none⟩,
         ⟨2, "henry", "h@x.com", get_password_hash "sh" "ph", some "admin",
            none, none, 0, none⟩] =
      Except.ok
        ⟨1, "alice", "a@x.com", get_password_hash "sa" "pa", some "user",
          none, none, 0, none⟩ ∧
    get_current_user 0 none none [] = Except.error credentials_exception :=
  ⟨C3_cookie_precedence_and_missing.1 0 ⟨some "a@x.com", some "user", 600⟩ _ _
      "a@x.com" _ (by decide) rfl rfl,
   C3_cookie_precedence_and_missing.2 0 []⟩

/-- Claim C6, counterexample. The claim asserts verify(p1, hash(p2)) = false
for every p1 ≠ p2. bcrypt uses only the first 72 bytes of the secret, so two
distinct passwords agreeing on their first 72 bytes verify interchangeably:
a 73-character password verifies against the hash of its 72-character
prefix. -/
theorem C6_counterexample :
    String.mk (List.replicate 73 'a') ≠ String.mk (List.replicate 72 'a') ∧
    verify_password (String.mk (List.replicate 73 'a'))
        (get_password_hash "somesalt" (String.mk (List.replicate 72 'a'))) =
      Except.ok true := by
  constructor
  · decide
  · rfl

/-- Claim C6, amended. verify(p, hash(p)) is always true; and
verify(p1, hash(p2)) is false exactly when the 72-byte truncations differ:
for all p1, p2 whose bcrypt truncations are distinct, verification fails
(the collision-freeness of the digest itself is the idealisation the spec
words "overwhelming probability" concede). -/
theorem C6_bcrypt_roundtrip :
    (∀ (salt p : String),
        verify_password p (get_password_hash salt p) = Except.ok true) ∧
    (∀ (salt p1 p2 : String),
        bcryptTruncate p1 ≠ bcryptTruncate p2 →
        verify_password p1 (get_password_hash salt p2) = Except.ok false) := by
  constructor
  · intro salt p
    simp [verify_password, get_password_hash, cryptContextVerify,
      cryptContextHash, bcryptDigestOf]
  · intro salt p1 p2 h
    simp [verify_password, get_password_hash, cryptContextVerify,
      cryptContextHash, bcryptDigestOf]
    intro hc
    exact absurd hc.symm h

/-- Witness for C6: the passwords "a" and "b" have distinct truncations;
"a" verifies against its own hash and fails against the hash of "b". -/
theorem C6_bcrypt_roundtrip_witness :
    bcryptTruncate "a" ≠ bcryptTruncate "b" ∧
    verify_password "a" (get_password_hash "s" "a") = Except.ok true ∧
    verify_password "a" (get_password_hash "s" "b") = Except.ok false :=
  ⟨by decide, C6_bcrypt_roundtrip.1 "s" "a",
   C6_bcrypt_roundtrip.2 "s" "a" "b" (by decide)⟩

/-- Claim C8, counterexample. The claim asserts that a token whose payload
subject is the empty string is rejected before any credential-store lookup.
The code only rejects a payload whose sub claim is absent (is None); the
empty string passes that check, the store lookup at line 111 is performed,
and when a record with the empty email exists the request is authenticated
rather than rejected. -/
theorem C8_counterexample :
    get_current_user 0 (some (JwtToken.signed ⟨some "", some "user", 10⟩)) none
        [⟨1, "ghost", "", get_password_hash "s" "pw", some "user",
            none, none, 0, none⟩] =
      Except.ok
        ⟨1, "ghost", "", get_password_hash "s" "pw", some "user",
          none, none, 0, none⟩ ∧
    get_current_user_queries_store 0
        (some (JwtToken.signed ⟨some "", some "user", 10⟩)) none = true :=
  ⟨rfl, rfl⟩

/-- Claim C8, amended. Only a payload with no sub claim at all is rejected
with the credentials error before the credential-store lookup is reached; a
present subject, the empty string included, proceeds to the lookup. -/
theorem C8_absent_subject_early_reject :
    ∀ (now : Nat) (r : Option String) (e : Nat) (header : Option JwtToken)
      (store : Store),
      get_current_user now (some (JwtToken.signed ⟨none, r, e⟩)) header store =
        Except.error credentials_exception ∧
      get_current_user_queries_store now
        (some (JwtToken.signed ⟨none, r, e⟩)) header = false := by
  intro now r e header store
  by_cases h : now < e <;>
    simp [get_current_user, get_current_user_queries_store, extractToken,
      jwtDecode, h]

/-- Claim C2: consuming a reset token succeeds only for a user whose stored
reset_token equals the supplied token and whose stored expiry is strictly in
the future; on success one update simultaneously overwrites the password
hash and clears both reset fields; a second consume call with the same token
then fails with the generic invalid-or-expired flash and leaves the store
(hence the password hash) unchanged. Hypotheses: the supplied token singles
out one document and the store satisfies the Mongo _id-uniqueness
invariant. -/
theorem C2_reset_token_single_use
    (now : Nat) (salt salt2 token pw pw2 : String) (store : Store) (u : User)
    (hfind : store.find? (resetMatches now token) = some u)
    (hids : store.Pairwise (fun a b => a.id ≠ b.id))
    (huniq : ∀ v ∈ store, resetMatches now token v = true → v = u) :
    (u.reset_token = some token ∧
      ∃ e, u.reset_token_expires_at = some e ∧ now < e) ∧
    reset_password_post now salt token pw pw store =
      { store := update_one_by_id store u.id (fun v =>
          { v with
              password_hash := get_password_hash salt pw
              reset_token := none
              reset_token_expires_at := none
              updated_at := some now })
        flash := "Your password has been reset successfully. Please log in."
        redirect := "/login" } ∧
    reset_password_post now salt2 token pw2 pw2
        ((reset_password_post now salt token pw pw store).store) =
      { store := (reset_password_post now salt token pw pw store).store
        flash := "Invalid or expired password reset token."
        redirect := "/forgot-password" } := by
  have hmatch := List.find?_some hfind
  simp only [resetMatches, Bool.and_eq_true] at hmatch
  obtain ⟨h1, h2⟩ := hmatch
  have hpost : reset_password_post now salt token pw pw store =
      { store := update_one_by_id store u.id (fun v =>
          { v with
              password_hash := get_password_hash salt pw
              reset_token := none
              reset_token_expires_at := none
              updated_at := some now })
        flash := "Your password has been reset successfully. Please log in."
        redirect := "/login" } := by
    simp [reset_password_post, hfind]
  refine ⟨⟨eq_of_beq h1, ?_⟩, hpost, ?_⟩
  · cases he : u.reset_token_expires_at with
    | none => rw [he] at h2; simp at h2
    | some e => rw [he] at h2; simp at h2; exact ⟨e, rfl, h2⟩
  · have hnone : (update_one_by_id store u.id (fun v =>
        { v with
            password_hash := get_password_hash salt pw
            reset_token := none
            reset_token_expires_at := none
            updated_at := some now })).find? (resetMatches now token) = none :=
      find?_update_one_by_id_eq_none _ _ (fun v => by simp [resetMatches])
        store u hfind hids huniq
    rw [hpost]
    simp [reset_password_post, hnone]

/-- Witness for C2: a one-user store whose reset token tok123 expires at
time 1000; at time 10 the first consume call flashes success and the second
consume call with the same token flashes the generic error. -/
theorem C2_reset_token_single_use_witness :
    (reset_password_post 10 "s1" "tok123" "new" "new"
        [⟨1, "alice", "a@x.com", get_password_hash "s0" "old", some "user",
            some "tok123", some 1000, 0, none⟩]).flash =
      "Your password has been reset successfully. Please log in." ∧
    (reset_password_post 10 "s2" "tok123" "other" "other"
        ((reset_password_post 10 "s1" "tok123" "new" "new"
            [⟨1, "alice", "a@x.com", get_password_hash "s0" "old", some "user",
                some "tok123", some 1000, 0, none⟩]).store)).flash =
      "Invalid or expired password reset token." := by
  have h := C2_reset_token_single_use 10 "s1" "s2" "tok123" "new" "other"
      [⟨1, "alice", "a@x.com", get_password_hash "s0" "old", some "user",
          some "tok123", some 1000, 0, none⟩]
      ⟨1, "alice", "a@x.com", get_password_hash "s0" "old", some "user",
          some "tok123", some 1000, 0, none⟩
      rfl (by simp) (by intro v hv _; simpa using hv)
  exact ⟨by rw [h.2.1], by rw [h.2.2]⟩

/-- Claim C9: every user record created by post_signup has role exactly
"user", and every role value written by a user-mutating handler lies in
the set containing "user" and "admin": post_signup hardcodes "user",
update_user coerces any other submitted role string to "user", and
assign_admin writes "admin". Stated as: any document of the resulting store
is either an untouched document of the original store or carries one of the
allowed roles. -/
theorem C9_role_values_invariant :
    (∀ (now : Nat) (salt : String) (freshId : Nat)
        (fullname email password confirm : String) (store : Store) (x : User),
        x ∈ (post_signup now salt freshId fullname email password confirm store).store →
        x ∈ store ∨ x.role = some "user") ∧
    (∀ (now : Nat) (email name new_email role : String) (store : Store) (x : User),
        x ∈ (update_user now email name new_email role store).store →
        x ∈ store ∨ x.role = some "user" ∨ x.role = some "admin") ∧
    (∀ (now : Nat) (email : String) (cu : User) (store : Store) (x : User),
        x ∈ (assign_admin now email cu store).store →
        x ∈ store ∨ x.role = some "admin") := by
  refine ⟨?_, ?_, ?_⟩
  · intro now salt freshId fullname email password confirm store x hx
    cases h1 : password != confirm with
    | true => left; simpa [post_signup, h1] using hx
    | false =>
        cases h2 : (find_one_email store email).isSome with
        | true => left; simpa [post_signup, h1, h2] using hx
        | false =>
            simp [post_signup, h1, h2] at hx
            rcases hx with hx | hx
            · exact Or.inl hx
            · right; rw [hx]
  · intro now email name new_email role store x hx
    cases hdup : email != new_email && (find_one_email store new_email).isSome with
    | true => left; simpa [update_user, hdup] using hx
    | false =>
        simp [update_user, hdup] at hx
        rcases mem_update_one_by_email_cases email _ store x hx with h | ⟨v, hv, he⟩
        · exact Or.inl h
        · right
          rw [he]
          by_cases hku : role = "user"
          · simp [hku]
          · by_cases hka : role = "admin"
            · simp [hku, hka]
            · simp [hku, hka]
  · intro now email cu store x hx
    cases hself : email == cu.email with
    | true => left; simpa [assign_admin, hself] using hx
    | false =>
        simp [assign_admin, hself] at hx
        rcases mem_update_one_by_email_cases email _ store x hx with h | ⟨v, hv, he⟩
        · exact Or.inl h
        · right; rw [he]

/-- Witness for C9: a concrete signup into the empty store yields a
role-"user" document; a concrete admin edit submitting the out-of-range
role string "superuser" yields a role-"user" document; a concrete
promotion yields a role-"admin" document. -/
theorem C9_role_values_invariant_witness :
    ((⟨7, "nina", "n@x.com", get_password_hash "s" "pw", some "user",
        none, none, 0, none⟩ : User) ∈ ([] : Store) ∨
      (⟨7, "nina", "n@x.com", get_password_hash "s" "pw", some "user",
        none, none, 0, none⟩ : User).role = some "user") ∧
    ((⟨3, "newname", "o@x.com", get_password_hash "s" "pw", some "user",
        none, none, 0, some 5⟩ : User) ∈
        [(⟨3, "old", "o@x.com", get_password_hash "s" "pw", some "user",
            none, none, 0, none⟩ : User)] ∨
      (⟨3, "newname", "o@x.com", get_password_hash "s" "pw", some "user",
        none, none, 0, some 5⟩ : User).role = some "user" ∨
      (⟨3, "newname", "o@x.com", get_password_hash "s" "pw", some "user",
        none, none, 0, some 5⟩ : User).role = some "admin") ∧
    ((⟨3, "old", "o@x.com", get_password_hash "s" "pw", some "admin",
        none, none, 0, some 6⟩ : User) ∈
        [(⟨3, "old", "o@x.com", get_password_hash "s" "pw", some "user",
            none, none, 0, none⟩ : User)] ∨
      (⟨3, "old", "o@x.com", get_password_hash "s" "pw", some "admin",
        none, none, 0, some 6⟩ : User).role = some "admin") :=
  ⟨C9_role_values_invariant.1 0 "s" 7 "nina" "n@x.com" "pw" "pw" [] _ (by decide),
   C9_role_values_invariant.2.1 5 "o@x.com" "newname" "o@x.com" "superuser"
     [⟨3, "old", "o@x.com", get_password_hash "s" "pw", some "user",
        none, none, 0, none⟩] _ (by decide),
   C9_role_values_invariant.2.2 6 "o@x.com"
     ⟨9, "root", "r@x.com", get_password_hash "q" "w", some "admin",
        none, none, 0, none⟩
     [⟨3, "old", "o@x.com", get_password_hash "s" "pw", some "user",
        none, none, 0, none⟩] _ (by decide)⟩

end SCMX
